import Mathlib

/-!
# WatchFlower: the `DeviceHygrotempLCD` BLE driver

A shallow embedding of `src/devices/device_hygrotemp_lcd.cpp`.

* The driver object is the record `Device`; every method is a function from the
  object before the call to an `Outcome`: the object after the call together
  with the ordered list of calls the method made on its collaborators
  (controller, services, SQL storage, signals of the base class).
* What the collaborators answer (the controller's `createServiceObject`, the
  result of `QSqlQuery::exec`, the wall clock, the bytes lying behind a short
  buffer) is an explicit argument of the method.
* `qDebug` diagnostics are not recorded; `qWarning` lines are.
-/

namespace WatchFlower

/-! ## Qt value types -/

/-- A `QByteArray`: the bytes of the array, in order. -/
abbrev QByteArray := List Nat

/-- A `QString`. -/
abbrev QString := String

/-- A `QBluetoothUuid`, held as the text `toString()` gives (with braces). -/
abbrev QBluetoothUuid := String

/-- The `QByteArray::mid(pos, len)` slice. -/
def QByteArray.mid (a : QByteArray) (pos len : Nat) : QByteArray :=
  (a.drop pos).take len

/-- The read `data[i]` through the pointer `constData()` gives. Inside the array
it is the byte of the array; at or past the end the language gives no value, and
`mem k` stands for whatever byte lies `k` places behind the last one. -/
def constData (value : QByteArray) (mem : Nat → Nat) (i : Nat) : Nat :=
  match value.get? i with
  | some b => b
  | none => mem (i - value.length)

/-- A C++ `float`, an IEEE 754 binary32 number: a finite number
`± mant * 2 ^ exp`, an infinity, or a NaN. -/
inductive QFloat where
  | finite (negative : Bool) (mant : Nat) (exp : Int)
  | infinity (negative : Bool)
  | nan
  deriving DecidableEq, Repr

/-- The number a finite `QFloat` stands for. -/
def QFloat.value : QFloat → Option ℚ
  | QFloat.finite negative mant exp =>
    some ((if negative then -1 else 1) * (mant : ℚ) * (2 : ℚ) ^ exp)
  | _ => none

/-- The integer part of `mant * 2 ^ exp`. -/
def integerPart (mant : Nat) (exp : Int) : Nat :=
  if 0 ≤ exp then mant * 2 ^ exp.toNat else mant / 2 ^ (-exp).toNat

/-- The cast `static_cast<int>(x)` to a 32-bit `int`: the fractional part is
dropped. When the integer part does not fit, or `x` is not finite, the language
leaves the result undefined: `undefinedCast x` stands for it. -/
def QFloat.toInt (undefinedCast : QFloat → Int) (x : QFloat) : Int :=
  match x with
  | QFloat.finite negative mant exp =>
    if negative then
      if integerPart mant exp ≤ 2147483648 then -(integerPart mant exp : Int)
      else undefinedCast x
    else
      if integerPart mant exp < 2147483648 then (integerPart mant exp : Int)
      else undefinedCast x
  | _ => undefinedCast x

/-- ASCII `0` to `9`. -/
def isDigit (b : Nat) : Bool := decide (48 ≤ b) && decide (b ≤ 57)

/-- The natural number written by a run of ASCII digits. -/
def digitsValue (ds : List Nat) : Nat :=
  ds.foldl (fun acc d => 10 * acc + (d - 48)) 0

/-- An optional sign in front of a number: whether it is a minus, and the text
behind it. -/
def readSign : List Nat → Bool × List Nat
  | 45 :: t => (true, t)
  | 43 :: t => (false, t)
  | s => (false, s)

/-- An unsigned decimal: digits with at most one point among them (one digit at
least) and nothing else. The result is the number written by all the digits and
the count of digits behind the point. -/
def readUnsigned (s : List Nat) : Option (Nat × Nat) :=
  let ip := s.span isDigit
  let fp : List Nat × List Nat :=
    match ip.2 with
    | 46 :: t => t.span isDigit
    | r => ([], r)
  if (ip.1 ++ fp.1).isEmpty then none
  else if fp.2.isEmpty then some (digitsValue (ip.1 ++ fp.1), fp.1.length)
  else none

/-- A plain decimal text: an optional sign and an unsigned decimal, nothing
before, between or behind. The result is the sign, the number `n` written by
all the digits and the count `k` of digits behind the point: the text denotes
`± n / 10 ^ k`. -/
def readDecimal (s : QByteArray) : Option (Bool × Nat × Nat) :=
  match readUnsigned (readSign s).2 with
  | some (n, k) => some ((readSign s).1, n, k)
  | none => none

/-- The count of halvings that bring `n` below 2, with `fuel` steps at most. -/
def log2Fuel : Nat → Nat → Nat
  | 0, _ => 0
  | fuel + 1, n => if n < 2 then 0 else log2Fuel fuel (n / 2) + 1

/-- The exponent `e` with `2 ^ e ≤ n / d < 2 ^ (e + 1)`, for positive `n`, `d`. -/
def floorLog2 (n d : Nat) : Int :=
  let e0 : Int := (log2Fuel n n : Int) - (log2Fuel d d : Int)
  if d * 2 ^ e0.toNat ≤ n * 2 ^ (-e0).toNat then e0 else e0 - 1

/-- The integer nearest to `num / den`, the even one of the two when `num / den`
lies halfway. -/
def nearestEven (num den : Nat) : Nat :=
  let q := num / den
  let r := num % den
  if 2 * r < den then q else if den < 2 * r then q + 1 else if q % 2 = 0 then q else q + 1

/-- The binary64 number nearest to `n / d` (positive `n`, `d`), as the pair
`(m, e)` of `m * 2 ^ e` with 53 significant bits in `m`: what the conversion of
a decimal text to `double` gives inside the range of `double`. -/
def toDouble (n d : Nat) : Nat × Int :=
  let e : Int := floorLog2 n d - 52
  let m := nearestEven (n * 2 ^ (-e).toNat) (d * 2 ^ e.toNat)
  if m = 2 ^ 53 then (2 ^ 52, e + 1) else (m, e)

/-- The conversion of a `double` with 53 significant bits to `float`: the
nearest number with 24 significant bits. -/
def toSingle (x : Nat × Int) : Nat × Int :=
  let m := nearestEven x.1 (2 ^ 29)
  if m = 2 ^ 24 then (2 ^ 23, x.2 + 30) else (m, x.2 + 29)

/-- The `float` for `n / d` (positive `n`, `d`): to `double` first, then to
`float`, each time to the nearest number. The result is `none` when it falls
outside the normal range of `float` (overflow, or a number below `2 ^ -126`). -/
def roundBinary32 (n d : Nat) : Option (Nat × Int) :=
  let r := toSingle (toDouble n d)
  if -149 ≤ r.2 ∧ r.2 ≤ 104 then some r else none

/-- The call `QByteArray::toFloat()`: the text is converted to a `double` and
the `double` to a `float`. The model covers
* the empty text: the conversion fails and the result is 0;
* a plain decimal text (see `readDecimal`) that is zero or whose `float` lies in
  the normal range: the result is the `float` nearest to the `double` nearest to
  the number written.
For every other text (white space, an exponent, `inf`, `nan`, a text the
conversion rejects, overflow, underflow) the result is `toFloatOther`, a
parameter. -/
def QByteArray.toFloat (toFloatOther : QByteArray → QFloat) (a : QByteArray) : QFloat :=
  match a with
  | [] => QFloat.finite false 0 0
  | _ :: _ =>
    match readDecimal a with
    | some (negative, n, k) =>
      if n = 0 then QFloat.finite negative 0 0
      else
        match roundBinary32 n (10 ^ k) with
        | some (m, e) => QFloat.finite negative m e
        | none => toFloatOther a
    | none => toFloatOther a

/-- A `QDateTime`, by its calendar fields. -/
structure QDateTime where
  year : Nat
  month : Nat
  day : Nat
  hour : Nat
  minute : Nat
  second : Nat
  deriving DecidableEq, Repr

/-- The decimal digit `n % 10` as a character. -/
def digitChar (n : Nat) : Char := Char.ofNat (48 + n % 10)

/-- Two decimal digits, zero padded. -/
def twoDigits (n : Nat) : List Char := [digitChar (n / 10), digitChar n]

/-- Four decimal digits, zero padded. -/
def fourDigits (n : Nat) : List Char :=
  [digitChar (n / 1000), digitChar (n / 100), digitChar (n / 10), digitChar n]

/-- The text `toString("yyyy-MM-dd hh:00:00")` gives: the time with minutes and
seconds replaced by zeros. -/
def QDateTime.toStringHour (t : QDateTime) : QString :=
  String.mk (fourDigits t.year ++ [Char.ofNat 45] ++ twoDigits t.month ++ [Char.ofNat 45]
    ++ twoDigits t.day ++ [Char.ofNat 32] ++ twoDigits t.hour ++ ":00:00".toList)

/-- The text `toString("yyyy-MM-dd hh:mm:ss")` gives. -/
def QDateTime.toStringFull (t : QDateTime) : QString :=
  String.mk (fourDigits t.year ++ [Char.ofNat 45] ++ twoDigits t.month ++ [Char.ofNat 45]
    ++ twoDigits t.day ++ [Char.ofNat 32] ++ twoDigits t.hour ++ [Char.ofNat 58]
    ++ twoDigits t.minute ++ [Char.ofNat 58] ++ twoDigits t.second)

/-! ## Bluetooth objects -/

/-- The states of `QLowEnergyService::ServiceState`. -/
inductive ServiceState where
  | InvalidService
  | DiscoveryRequired
  | DiscoveringServices
  | ServiceDiscovered
  | LocalService
  deriving DecidableEq, Repr

/-- A `QLowEnergyDescriptor`: `none` is the invalid descriptor, `some h` the
descriptor with handle `h`. -/
abbrev QLowEnergyDescriptor := Option Nat

/-- A `QLowEnergyCharacteristic`: its UUID, its current value and its Client
Characteristic Configuration descriptor. -/
structure QLowEnergyCharacteristic where
  uuid : QBluetoothUuid
  value : QByteArray
  clientCharacteristicConfiguration : QLowEnergyDescriptor
  deriving DecidableEq, Repr

/-- The invalid characteristic a failed lookup gives. -/
def QLowEnergyCharacteristic.invalid : QLowEnergyCharacteristic := ⟨"", [], none⟩

/-- A `QLowEnergyService` object as the driver sees it. -/
structure QLowEnergyService where
  serviceUuid : QBluetoothUuid
  state : ServiceState
  characteristics : List QLowEnergyCharacteristic
  deriving DecidableEq, Repr

/-- The lookup `QLowEnergyService::characteristic(uuid)`. -/
def QLowEnergyService.characteristic (s : QLowEnergyService) (u : QBluetoothUuid) :
    QLowEnergyCharacteristic :=
  match s.characteristics.find? (fun ch => decide (ch.uuid = u)) with
  | some ch => ch
  | none => QLowEnergyCharacteristic.invalid

/-! ## The driver object and its collaborators -/

/-- The members of `DeviceHygrotempLCD` (its own and those of its base classes)
that this file reads or writes. -/
structure Device where
  m_deviceAddress : QString
  m_firmware : QString
  m_firmware_uptodate : Bool
  m_battery : Int
  m_temperature : QFloat
  m_humidity : Int
  m_lastUpdate : QDateTime
  m_dbInternal : Bool
  m_dbExternal : Bool
  serviceInfos : Option QLowEnergyService
  serviceBattery : Option QLowEnergyService
  serviceData : Option QLowEnergyService
  m_notificationDesc : QLowEnergyDescriptor
  deriving DecidableEq, Repr

/-- The accessor `getAddress()` of the base class. -/
def Device.getAddress (dev : Device) : QString := dev.m_deviceAddress

/-- The two statements the driver sends to the SQL storage, with their bound
values. -/
inductive SqlQuery where
  /-- The statement `REPLACE INTO plantData (deviceAddr, ts, ts_full, temperature, humidity)`. -/
  | replacePlantData (deviceAddr ts ts_full : QString) (temp : QFloat) (humi : Int)
  /-- The statement `UPDATE devices SET deviceFirmware, deviceBattery WHERE deviceAddr`. -/
  | updateDevices (firmware : QString) (battery : Int) (deviceAddr : QString)
  deriving DecidableEq, Repr

/-- The three service members of the driver. -/
inductive ServiceSlot where
  | infos
  | battery
  | data
  deriving DecidableEq, Repr

/-- A call the driver makes on a collaborator. -/
inductive Event where
  /-- The `delete` of a service object (never recorded for a null pointer). -/
  | deleteService (s : QLowEnergyService)
  /-- The call `controller->createServiceObject(uuid)`. -/
  | createServiceObject (uuid : QBluetoothUuid)
  /-- A `qWarning()` line. -/
  | qWarning (msg : String)
  /-- The call `connect(service, stateChanged, this, serviceDetailsDiscovered_...)`. -/
  | connectStateChanged (slot : ServiceSlot)
  /-- The call `connect(serviceData, characteristicChanged, this, bleReadNotify)`. -/
  | connectCharacteristicChanged
  /-- The call `QTimer::singleShot(0, ...)` of `discoverDetails()` on a service. -/
  | singleShotDiscoverDetails (slot : ServiceSlot)
  /-- The comparison `Version(a) >= Version(b)`. -/
  | versionCompare (a b : QString)
  /-- The signal `Q_EMIT sensorUpdated()`. -/
  | sensorUpdated
  /-- The call `serviceData->writeDescriptor(d, value)`. -/
  | writeDescriptor (d : QLowEnergyDescriptor) (value : QByteArray)
  /-- The call `QSqlQuery::exec()` of a prepared statement. -/
  | sqlExec (q : SqlQuery)
  /-- The call `refreshDataFinished(status)` of the base class. -/
  | refreshDataFinished (status : Bool)
  /-- The call `controller->disconnectFromDevice()`. -/
  | disconnectFromDevice
  deriving DecidableEq, Repr

/-- The object after a call and the calls made meanwhile, in order. -/
structure Outcome where
  dev : Device
  trace : List Event
  deriving DecidableEq, Repr

/-- The service UUID `0000180a`: device information. -/
def UUID_INFOS : QBluetoothUuid := "\x7b0000180a-0000-1000-8000-00805f9b34fb\x7d"

/-- The service UUID `226c0000`: temperature and humidity data. -/
def UUID_DATA : QBluetoothUuid := "\x7b226c0000-6476-4566-7562-66734470666d\x7d"

/-- The characteristic UUID `00002a26`: firmware revision string. -/
def UUID_FIRMWARE : QBluetoothUuid := "\x7b00002a26-0000-1000-8000-00805f9b34fb\x7d"

/-- The characteristic UUID `226caa55`: temperature and humidity. -/
def UUID_TEMPHUMI : QBluetoothUuid := "\x7b226caa55-6476-4566-7562-66734470666d\x7d"

/-- What the driver takes from code outside this file: the conversion of a
`QByteArray` to a `QString`, the ordering of the `Version` class, the constant
`LATEST_KNOWN_FIRMWARE_HYGROTEMP_LCD`, and the two places where the model of
the numbers stops (see `QByteArray.toFloat` and `QFloat.toInt`). -/
structure Platform where
  /-- The conversion behind `m_firmware = chc.value()`. -/
  fromUtf8 : QByteArray → QString
  /-- The comparison `Version(a) >= Version(b)`. -/
  versionGE : QString → QString → Bool
  /-- The newest firmware the application knows. -/
  LATEST_KNOWN_FIRMWARE_HYGROTEMP_LCD : QString
  /-- The result of `toFloat()` on a text outside the model. -/
  toFloatOther : QByteArray → QFloat
  /-- The result of a cast to `int` that the language leaves undefined. -/
  undefinedCast : QFloat → Int

/-- What the surroundings answer during one run of `bleReadNotify`. -/
structure NotifyEnv where
  /-- The bytes behind the end of the buffer (see `constData`). -/
  mem : Nat → Nat
  /-- The clock at the first `QDateTime::currentDateTime()` (for `m_lastUpdate`). -/
  now0 : QDateTime
  /-- The clock at the second call (for `tsStr`). -/
  now1 : QDateTime
  /-- The clock at the third call (for `tsFullStr`). -/
  now2 : QDateTime
  /-- The result of `addData.exec()`. -/
  addDataExec : Bool
  /-- The result of `updateDevice.exec()`. -/
  updateDeviceExec : Bool

/-! ## The methods of the driver -/

/-- One block of `serviceScanDone`: a service that exists and is in state
`DiscoveryRequired` gets its handlers connected and its detail discovery
scheduled. -/
def scanService (svc : Option QLowEnergyService) (slot : ServiceSlot) : List Event :=
  match svc with
  | none => []
  | some s =>
    if s.state = ServiceState.DiscoveryRequired then
      [Event.connectStateChanged slot]
        ++ (if slot = ServiceSlot.data then [Event.connectCharacteristicChanged] else [])
        ++ [Event.singleShotDiscoverDetails slot]
    else []

/-- The method `DeviceHygrotempLCD::serviceScanDone()`. -/
def serviceScanDone (dev : Device) : Outcome :=
  ⟨dev, scanService dev.serviceInfos ServiceSlot.infos
    ++ scanService dev.serviceBattery ServiceSlot.battery
    ++ scanService dev.serviceData ServiceSlot.data⟩

/-- The statement `delete p;` on a service pointer. -/
def deleteEvents (p : Option QLowEnergyService) : List Event :=
  match p with
  | none => []
  | some s => [Event.deleteService s]

/-- The first block of `addLowEnergyService`: the device information service.
`QString::isEmpty()` is the test `size() == 0`. -/
def addLowEnergyService_infos (createServiceObject : QBluetoothUuid → Option QLowEnergyService)
    (dev : Device) (uuid : QBluetoothUuid) : Outcome :=
  if uuid = UUID_INFOS then
    let dev1 := { dev with serviceInfos := none }
    if decide (dev1.m_firmware.length = 0) || decide (dev1.m_firmware = "UNKN") then
      let dev2 := { dev1 with serviceInfos := createServiceObject uuid }
      ⟨dev2, deleteEvents dev.serviceInfos ++ [Event.createServiceObject uuid]
        ++ (if dev2.serviceInfos.isNone then
              [Event.qWarning ("Cannot create service (infos) for uuid:" ++ uuid)] else [])⟩
    else ⟨dev1, deleteEvents dev.serviceInfos⟩
  else ⟨dev, []⟩

/-- The last block of `addLowEnergyService`: the data service. -/
def addLowEnergyService_data (createServiceObject : QBluetoothUuid → Option QLowEnergyService)
    (dev : Device) (uuid : QBluetoothUuid) : Outcome :=
  if uuid = UUID_DATA then
    let dev1 := { dev with serviceData := createServiceObject uuid }
    ⟨dev1, deleteEvents dev.serviceData ++ [Event.createServiceObject uuid]
      ++ (if dev1.serviceData.isNone then
            [Event.qWarning ("Cannot create service (data) for uuid:" ++ uuid)] else [])⟩
  else ⟨dev, []⟩

/-- The method `DeviceHygrotempLCD::addLowEnergyService(uuid)`: the block of the
device information service, then the block of the data service (the block of
the battery service is commented out in the source). -/
def addLowEnergyService (createServiceObject : QBluetoothUuid → Option QLowEnergyService)
    (dev : Device) (uuid : QBluetoothUuid) : Outcome :=
  let r1 := addLowEnergyService_infos createServiceObject dev uuid
  let r2 := addLowEnergyService_data createServiceObject r1.dev uuid
  ⟨r2.dev, r1.trace ++ r2.trace⟩

/-- The method `DeviceHygrotempLCD::serviceDetailsDiscovered_infos(newState)`.
The result is `none` when the method goes through the null pointer
`serviceInfos`. -/
def serviceDetailsDiscovered_infos (P : Platform) (dev : Device) (newState : ServiceState) :
    Option Outcome :=
  if newState = ServiceState.ServiceDiscovered then
    match dev.serviceInfos with
    | none => none
    | some svc =>
      let chc := svc.characteristic UUID_FIRMWARE
      let dev1 := if chc.value.length > 0 then { dev with m_firmware := P.fromUtf8 chc.value }
                  else dev
      if dev1.m_firmware.length = 8 then
        if P.versionGE dev1.m_firmware P.LATEST_KNOWN_FIRMWARE_HYGROTEMP_LCD then
          some ⟨{ dev1 with m_firmware_uptodate := true },
            [Event.versionCompare dev1.m_firmware P.LATEST_KNOWN_FIRMWARE_HYGROTEMP_LCD,
             Event.sensorUpdated]⟩
        else
          some ⟨dev1,
            [Event.versionCompare dev1.m_firmware P.LATEST_KNOWN_FIRMWARE_HYGROTEMP_LCD]⟩
      else some ⟨dev1, []⟩
  else some ⟨dev, []⟩

/-- The method `DeviceHygrotempLCD::serviceDetailsDiscovered_battery(newState)`:
its body is commented out in the source. -/
def serviceDetailsDiscovered_battery (dev : Device) (_newState : ServiceState) : Outcome :=
  ⟨dev, []⟩

/-- The method `DeviceHygrotempLCD::serviceDetailsDiscovered_data(newState)`. -/
def serviceDetailsDiscovered_data (dev : Device) (newState : ServiceState) : Outcome :=
  if newState = ServiceState.ServiceDiscovered then
    match dev.serviceData with
    | some svc =>
      let cha := svc.characteristic UUID_TEMPHUMI
      let dev1 := { dev with m_notificationDesc := cha.clientCharacteristicConfiguration }
      ⟨dev1, [Event.writeDescriptor dev1.m_notificationDesc [0x01, 0x00]]⟩
    | none => ⟨dev, []⟩
  else ⟨dev, []⟩

/-- The method `DeviceHygrotempLCD::bleWriteDone`: an empty body. -/
def bleWriteDone (dev : Device) (_c : QLowEnergyCharacteristic) (_value : QByteArray) : Outcome :=
  ⟨dev, []⟩

/-- The method `DeviceHygrotempLCD::bleReadDone`: its body is commented out. -/
def bleReadDone (dev : Device) (_c : QLowEnergyCharacteristic) (_value : QByteArray) : Outcome :=
  ⟨dev, []⟩

/-- The two SQL statements of `bleReadNotify`, each followed by its warning
when `exec()` fails. -/
def storeReading (env : NotifyEnv) (dev : Device) : List Event :=
  [Event.sqlExec (SqlQuery.replacePlantData dev.getAddress env.now1.toStringHour
      env.now2.toStringFull dev.m_temperature dev.m_humidity)]
    ++ (if env.addDataExec = false then [Event.qWarning "> addData.exec() ERROR"] else [])
    ++ [Event.sqlExec (SqlQuery.updateDevices dev.m_firmware dev.m_battery dev.getAddress)]
    ++ (if env.updateDeviceExec = false then [Event.qWarning "> updateDevice.exec() ERROR"]
        else [])

/-- The method `DeviceHygrotempLCD::bleReadNotify(c, value)`. -/
def bleReadNotify (P : Platform) (env : NotifyEnv) (dev : Device)
    (c : QLowEnergyCharacteristic) (value : QByteArray) : Outcome :=
  if c.uuid = UUID_TEMPHUMI then
    if value.length > 0 then
      if constData value env.mem 1 ≠ 0x3D ∧ constData value env.mem 8 ≠ 0x3D then
        ⟨dev, []⟩
      else
        let dev1 := { dev with m_temperature := (value.mid 2 4).toFloat P.toFloatOther }
        let dev2 := { dev1 with
          m_humidity := ((value.mid 9 4).toFloat P.toFloatOther).toInt P.undefinedCast }
        let dev3 := { dev2 with m_lastUpdate := env.now0 }
        ⟨dev3, (if dev3.m_dbInternal || dev3.m_dbExternal then storeReading env dev3 else [])
          ++ [Event.refreshDataFinished true, Event.disconnectFromDevice]⟩
    else ⟨dev, []⟩
  else ⟨dev, []⟩

/-- The method `DeviceHygrotempLCD::confirmedDescriptorWrite(d, value)`: the
test guards a `qDebug` line only, the disconnect behind it is commented out. -/
def confirmedDescriptorWrite (dev : Device) (d : QLowEnergyDescriptor) (value : QByteArray) :
    Outcome :=
  if d.isSome && decide (d = dev.m_notificationDesc) && decide (value = [0x00, 0x00]) then
    ⟨dev, []⟩
  else ⟨dev, []⟩

/-! ## Reading a trace -/

/-- The SQL statements executed, in order. -/
def sqlWrites : List Event → List SqlQuery
  | [] => []
  | Event.sqlExec q :: es => q :: sqlWrites es
  | _ :: es => sqlWrites es

/-- The arguments of the calls `refreshDataFinished`, in order. -/
def refreshSignals : List Event → List Bool
  | [] => []
  | Event.refreshDataFinished b :: es => b :: refreshSignals es
  | _ :: es => refreshSignals es

/-- The UUIDs handed to `createServiceObject`, in order. -/
def createdUuids : List Event → List QBluetoothUuid
  | [] => []
  | Event.createServiceObject u :: es => u :: createdUuids es
  | _ :: es => createdUuids es

/-- The `Version` comparisons made, in order. -/
def versionCompares : List Event → List (QString × QString)
  | [] => []
  | Event.versionCompare a b :: es => (a, b) :: versionCompares es
  | _ :: es => versionCompares es

/-! ## Example surroundings -/

/-- A byte array read as ASCII text up to its first zero byte: what the
conversion to `QString` gives on ASCII bytes. -/
def asciiText (a : QByteArray) : QString :=
  String.mk ((a.takeWhile (fun b => decide (b ≠ 0))).map Char.ofNat)

/-- The ASCII bytes of a text. -/
def asciiBytes (s : String) : QByteArray := s.toList.map Char.toNat

/-- The dot-separated fields of a version text, each read as a decimal number. -/
def versionFields : List Char → Nat → List Nat
  | [], acc => [acc]
  | c :: cs, acc =>
    if c = Char.ofNat 46 then acc :: versionFields cs 0
    else versionFields cs (10 * acc + (c.toNat - 48))

/-- Whether a list of fields is at least another, fields compared from the
left; a missing field counts as 0. -/
def fieldsGE : List Nat → List Nat → Bool
  | [], [] => true
  | [], b :: bs => decide (b = 0) && fieldsGE [] bs
  | _ :: _, [] => true
  | a :: as, b :: bs => decide (b < a) || (decide (a = b) && fieldsGE as bs)

/-- Modelled from the spec: the version-ordering utility of
`utils/utils_versionchecker.h`, whose code is not among the sources. The spec
only names it ("an external version-ordering utility"); here two version texts
are compared field by field as dotted decimal numbers. Used as an example of a
`Platform` only. -/
def dottedVersionGE (a b : QString) : Bool :=
  fieldsGE (versionFields a.toList 0) (versionFields b.toList 0)

/-- An example platform: ASCII firmware texts, dotted versions, `00.00.66` as
the newest known firmware, 0 for every text outside the model of `toFloat()`
and for every undefined cast. -/
def examplePlatform : Platform :=
  ⟨asciiText, dottedVersionGE, "00.00.66", fun _ => QFloat.finite false 0 0, fun _ => 0⟩

/-- An example driver object: nothing known yet, no service created. -/
def exampleDevice : Device :=
  { m_deviceAddress := "A4:C1:38:00:00:01"
    m_firmware := ""
    m_firmware_uptodate := false
    m_battery := 0
    m_temperature := QFloat.finite false 0 0
    m_humidity := 0
    m_lastUpdate := ⟨2020, 1, 1, 0, 0, 0⟩
    m_dbInternal := false
    m_dbExternal := false
    serviceInfos := none
    serviceBattery := none
    serviceData := none
    m_notificationDesc := none }

/-- An example of surroundings for `bleReadNotify`: zero bytes behind the
buffer, a clock at 2020-03-07 09:05:01, both SQL statements succeed. -/
def exampleEnv : NotifyEnv :=
  ⟨fun _ => 0, ⟨2020, 3, 7, 9, 5, 1⟩, ⟨2020, 3, 7, 9, 5, 1⟩, ⟨2020, 3, 7, 9, 5, 1⟩, true, true⟩

/-- The temperature and humidity characteristic, as handed to the handlers. -/
def tempHumiChar : QLowEnergyCharacteristic := ⟨UUID_TEMPHUMI, [], some 1⟩

/-- An info service in state `ServiceDiscovered` whose firmware characteristic
holds the given text. -/
def infoService (fw : String) : QLowEnergyService :=
  ⟨UUID_INFOS, ServiceState.ServiceDiscovered, [⟨UUID_FIRMWARE, asciiBytes fw, none⟩]⟩

/-- The data members of the driver object: firmware text, battery level,
temperature, humidity and time of the last update. -/
def Device.dataFields (dev : Device) : QString × Int × QFloat × Int × QDateTime :=
  (dev.m_firmware, dev.m_battery, dev.m_temperature, dev.m_humidity, dev.m_lastUpdate)

/-- The data members other than the firmware text. -/
def Device.readingFields (dev : Device) : Int × QFloat × Int × QDateTime :=
  (dev.m_battery, dev.m_temperature, dev.m_humidity, dev.m_lastUpdate)

/-- A controller whose `createServiceObject` always gives a fresh service in
state `DiscoveryRequired`. -/
def exampleController (u : QBluetoothUuid) : Option QLowEnergyService :=
  some ⟨u, ServiceState.DiscoveryRequired, []⟩

/-! ## Decimal numerals, in the words of the specification -/

/-- A decimal numeral: an optional minus sign, the digits before the point and
the digits behind it, each a number from 0 to 9. -/
structure Numeral where
  negative : Bool
  intDigits : List Nat
  fracDigits : List Nat
  deriving DecidableEq, Repr

/-- The decimal value of a numeral. -/
def Numeral.value (n : Numeral) : ℚ :=
  (if n.negative then -1 else 1)
    * (((Nat.ofDigits 10 n.intDigits.reverse : Nat) : ℚ)
        + ((Nat.ofDigits 10 n.fracDigits.reverse : Nat) : ℚ) / (10 : ℚ) ^ n.fracDigits.length)

/-- A notification whose bytes `data[1]` and `data[8]`, as the handler reads
them, both differ from 0x3D is a no-op: the driver object is returned as it was
and no call is made. -/
theorem bleReadNotify_unmarked_noop (P : Platform) (env : NotifyEnv) (dev : Device)
    (c : QLowEnergyCharacteristic) (value : QByteArray)
    (h1 : constData value env.mem 1 ≠ 0x3D) (h8 : constData value env.mem 8 ≠ 0x3D) :
    bleReadNotify P env dev c value = ⟨dev, []⟩ := by
  unfold bleReadNotify
  split
  · split
    · rw [if_pos ⟨h1, h8⟩]
    · rfl
  · rfl

/-- Inside the array `data[i]` is the byte of the array. -/
theorem constData_of_get? (value : QByteArray) (mem : Nat → Nat) (i b : Nat)
    (h : value.get? i = some b) : constData value mem i = b := by
  unfold constData
  rw [h]

/-- A payload that has a byte 1 and a byte 8, both other than 0x3D, is a no-op
whatever lies behind the buffer. -/
theorem bleReadNotify_unmarked_noop_of_bytes (P : Platform) (env : NotifyEnv) (dev : Device)
    (c : QLowEnergyCharacteristic) (value : QByteArray) (b1 b8 : Nat)
    (h1 : value.get? 1 = some b1) (h8 : value.get? 8 = some b8)
    (n1 : b1 ≠ 0x3D) (n8 : b8 ≠ 0x3D) :
    bleReadNotify P env dev c value = ⟨dev, []⟩ := by
  apply bleReadNotify_unmarked_noop
  · rw [constData_of_get? value env.mem 1 b1 h1]
    exact n1
  · rw [constData_of_get? value env.mem 8 b8 h8]
    exact n8

/-- An empty payload is a no-op, whatever lies behind the buffer. -/
theorem bleReadNotify_empty_noop (P : Platform) (env : NotifyEnv) (dev : Device)
    (c : QLowEnergyCharacteristic) : bleReadNotify P env dev c [] = ⟨dev, []⟩ := by
  unfold bleReadNotify
  split <;> rfl

/-- C1: the payload `00 00` on the data characteristic has a byte 1 other than
0x3D and no byte 8. The handler tests `data[8]` all the same, six places behind
the end of the buffer: with 0x3D lying there the payload is accepted, the
temperature and the humidity are overwritten with 0, the clock is stamped,
`refreshDataFinished(true)` is called and the disconnect is requested; with any
other byte there the payload is dropped. -/
theorem bleReadNotify_short_payload_stray_marker :
    ([0, 0] : QByteArray).get? 1 = some 0
    ∧ ([0, 0] : QByteArray).get? 8 = none
    ∧ bleReadNotify examplePlatform { exampleEnv with mem := fun _ => 0x3D }
        { exampleDevice with m_temperature := QFloat.finite false 11272192 (-19),
                             m_humidity := 55 }
        tempHumiChar [0, 0]
      = ⟨{ exampleDevice with m_temperature := QFloat.finite false 0 0, m_humidity := 0,
                              m_lastUpdate := ⟨2020, 3, 7, 9, 5, 1⟩ },
         [Event.refreshDataFinished true, Event.disconnectFromDevice]⟩
    ∧ bleReadNotify examplePlatform exampleEnv
        { exampleDevice with m_temperature := QFloat.finite false 11272192 (-19),
                             m_humidity := 55 }
        tempHumiChar [0, 0]
      = ⟨{ exampleDevice with m_temperature := QFloat.finite false 11272192 (-19),
                              m_humidity := 55 }, []⟩ := by
  decide

/-- What `bleReadNotify` does with a notification it accepts: the three members
it writes, and the calls it makes. -/
theorem accepted_notification_outcome (P : Platform) (env : NotifyEnv) (dev : Device)
    (c : QLowEnergyCharacteristic) (value : QByteArray)
    (hc : c.uuid = UUID_TEMPHUMI) (hne : value ≠ [])
    (hm : constData value env.mem 1 = 0x3D ∨ constData value env.mem 8 = 0x3D) :
    bleReadNotify P env dev c value =
      ⟨{ dev with m_temperature := (value.mid 2 4).toFloat P.toFloatOther
                  m_humidity := ((value.mid 9 4).toFloat P.toFloatOther).toInt P.undefinedCast
                  m_lastUpdate := env.now0 },
       (if dev.m_dbInternal || dev.m_dbExternal then
          storeReading env
            { dev with m_temperature := (value.mid 2 4).toFloat P.toFloatOther
                       m_humidity :=
                         ((value.mid 9 4).toFloat P.toFloatOther).toInt P.undefinedCast
                       m_lastUpdate := env.now0 }
        else [])
        ++ [Event.refreshDataFinished true, Event.disconnectFromDevice]⟩ := by
  have hlen : value.length > 0 := List.length_pos.mpr hne
  have hnot : ¬ (constData value env.mem 1 ≠ 0x3D ∧ constData value env.mem 8 ≠ 0x3D) := by
    rintro ⟨h1, h8⟩
    rcases hm with h | h
    · exact h1 h
    · exact h8 h
  unfold bleReadNotify
  rw [if_pos hc, if_pos hlen, if_neg hnot]

/-- The SQL statements of `storeReading`, whatever `exec()` answers. -/
theorem sqlWrites_storeReading (env : NotifyEnv) (dev : Device) :
    sqlWrites (storeReading env dev) =
      [SqlQuery.replacePlantData dev.m_deviceAddress env.now1.toStringHour
         env.now2.toStringFull dev.m_temperature dev.m_humidity,
       SqlQuery.updateDevices dev.m_firmware dev.m_battery dev.m_deviceAddress] := by
  unfold storeReading Device.getAddress
  cases env.addDataExec <;> cases env.updateDeviceExec <;> rfl

/-- No call of `storeReading` is `refreshDataFinished`. -/
theorem refreshSignals_storeReading (env : NotifyEnv) (dev : Device) :
    refreshSignals (storeReading env dev) = [] := by
  unfold storeReading
  cases env.addDataExec <;> cases env.updateDeviceExec <;> rfl

/-- No call of `storeReading` is a disconnect request. -/
theorem disconnect_not_mem_storeReading (env : NotifyEnv) (dev : Device) :
    Event.disconnectFromDevice ∉ storeReading env dev := by
  unfold storeReading
  cases env.addDataExec <;> cases env.updateDeviceExec <;> simp

/-- The calls `refreshDataFinished` of two traces in a row. -/
theorem refreshSignals_append (xs ys : List Event) :
    refreshSignals (xs ++ ys) = refreshSignals xs ++ refreshSignals ys := by
  induction xs with
  | nil => rfl
  | cons e es ih => cases e <;> simp [refreshSignals, ih]

/-- The SQL statements of two traces in a row. -/
theorem sqlWrites_append (xs ys : List Event) :
    sqlWrites (xs ++ ys) = sqlWrites xs ++ sqlWrites ys := by
  induction xs with
  | nil => rfl
  | cons e es ih => cases e <;> simp [sqlWrites, ih]

/-- C3: an accepted notification (data characteristic, payload not empty, 0x3D
read at byte 1 or at byte 8) ends with one call `refreshDataFinished(true)`
followed by one disconnect request, and makes no other call of either kind,
whatever the persistence flags are and whatever the two `exec()` calls
answer. -/
theorem bleReadNotify_accepted_refresh_then_disconnect (P : Platform) (env : NotifyEnv)
    (dev : Device) (c : QLowEnergyCharacteristic) (value : QByteArray)
    (hc : c.uuid = UUID_TEMPHUMI) (hne : value ≠ [])
    (hm : constData value env.mem 1 = 0x3D ∨ constData value env.mem 8 = 0x3D) :
    ∃ pre : List Event,
      (bleReadNotify P env dev c value).trace
          = pre ++ [Event.refreshDataFinished true, Event.disconnectFromDevice]
      ∧ refreshSignals pre = []
      ∧ Event.disconnectFromDevice ∉ pre
      ∧ refreshSignals (bleReadNotify P env dev c value).trace = [true]
      ∧ (bleReadNotify P env dev c value).trace.count Event.disconnectFromDevice = 1 := by
  rw [accepted_notification_outcome P env dev c value hc hne hm]
  cases hdb : (dev.m_dbInternal || dev.m_dbExternal)
  · refine ⟨[], ?_, rfl, by simp, ?_, ?_⟩ <;> simp [refreshSignals]
  · rw [if_pos rfl]
    refine ⟨_, rfl, refreshSignals_storeReading _ _,
      disconnect_not_mem_storeReading _ _, ?_, ?_⟩
    · show refreshSignals (storeReading env _ ++ _) = [true]
      rw [refreshSignals_append, refreshSignals_storeReading]
      rfl
    · show List.count Event.disconnectFromDevice (storeReading env _ ++ _) = 1
      rw [List.count_append, List.count_eq_zero.mpr (disconnect_not_mem_storeReading _ _)]
      decide

/-- C3, at the frame `T=21.5 H=55.0` with persistence off. -/
theorem bleReadNotify_accepted_refresh_then_disconnect_witness :
    tempHumiChar.uuid = UUID_TEMPHUMI
    ∧ asciiBytes "T=21.5 H=55.0" ≠ []
    ∧ ∃ pre : List Event,
      (bleReadNotify examplePlatform exampleEnv exampleDevice tempHumiChar
          (asciiBytes "T=21.5 H=55.0")).trace
          = pre ++ [Event.refreshDataFinished true, Event.disconnectFromDevice]
      ∧ refreshSignals pre = []
      ∧ Event.disconnectFromDevice ∉ pre
      ∧ refreshSignals (bleReadNotify examplePlatform exampleEnv exampleDevice tempHumiChar
          (asciiBytes "T=21.5 H=55.0")).trace = [true]
      ∧ (bleReadNotify examplePlatform exampleEnv exampleDevice tempHumiChar
          (asciiBytes "T=21.5 H=55.0")).trace.count Event.disconnectFromDevice = 1 :=
  ⟨rfl, by decide,
    bleReadNotify_accepted_refresh_then_disconnect examplePlatform exampleEnv exampleDevice
      tempHumiChar (asciiBytes "T=21.5 H=55.0") rfl (by decide) (Or.inl (by decide))⟩

/-- The characters of `toString("yyyy-MM-dd hh:00:00")`. -/
theorem toStringHour_chars (t : QDateTime) :
    t.toStringHour = String.mk
      [Char.ofNat (48 + t.year / 1000 % 10), Char.ofNat (48 + t.year / 100 % 10),
       Char.ofNat (48 + t.year / 10 % 10), Char.ofNat (48 + t.year % 10), '-',
       Char.ofNat (48 + t.month / 10 % 10), Char.ofNat (48 + t.month % 10), '-',
       Char.ofNat (48 + t.day / 10 % 10), Char.ofNat (48 + t.day % 10), ' ',
       Char.ofNat (48 + t.hour / 10 % 10), Char.ofNat (48 + t.hour % 10),
       ':', '0', '0', ':', '0', '0'] := rfl

/-- The characters of `toString("yyyy-MM-dd hh:mm:ss")`. -/
theorem toStringFull_chars (t : QDateTime) :
    t.toStringFull = String.mk
      [Char.ofNat (48 + t.year / 1000 % 10), Char.ofNat (48 + t.year / 100 % 10),
       Char.ofNat (48 + t.year / 10 % 10), Char.ofNat (48 + t.year % 10), '-',
       Char.ofNat (48 + t.month / 10 % 10), Char.ofNat (48 + t.month % 10), '-',
       Char.ofNat (48 + t.day / 10 % 10), Char.ofNat (48 + t.day % 10), ' ',
       Char.ofNat (48 + t.hour / 10 % 10), Char.ofNat (48 + t.hour % 10), ':',
       Char.ofNat (48 + t.minute / 10 % 10), Char.ofNat (48 + t.minute % 10), ':',
       Char.ofNat (48 + t.second / 10 % 10), Char.ofNat (48 + t.second % 10)] := rfl

/-- C8: an accepted notification executes SQL statements exactly when
`m_dbInternal || m_dbExternal` holds. It then executes two, in this order.
First the `REPLACE INTO plantData` bound to the device address, to the text
`yyyy-MM-dd hh:00:00` of the clock (year, month, day and hour in decimal
digits, minutes and seconds replaced by `00`), to the text
`yyyy-MM-dd hh:mm:ss` of the clock, and to the temperature and the humidity
just decoded, those the object holds afterwards. Then the `UPDATE devices` bound
to firmware, battery and device address. Whatever the two `exec()` calls answer
(the pair `a`, `u`), the same two statements are executed and the driver object
comes out the same. -/
theorem bleReadNotify_accepted_storage (P : Platform) (env : NotifyEnv) (dev : Device)
    (c : QLowEnergyCharacteristic) (value : QByteArray) (a u : Bool)
    (hc : c.uuid = UUID_TEMPHUMI) (hne : value ≠ [])
    (hm : constData value env.mem 1 = 0x3D ∨ constData value env.mem 8 = 0x3D) :
    (sqlWrites (bleReadNotify P env dev c value).trace ≠ []
        ↔ (dev.m_dbInternal || dev.m_dbExternal) = true)
    ∧ ((dev.m_dbInternal || dev.m_dbExternal) = true →
        sqlWrites (bleReadNotify P env dev c value).trace =
          [SqlQuery.replacePlantData dev.m_deviceAddress
             (String.mk
               [Char.ofNat (48 + env.now1.year / 1000 % 10),
                Char.ofNat (48 + env.now1.year / 100 % 10),
                Char.ofNat (48 + env.now1.year / 10 % 10),
                Char.ofNat (48 + env.now1.year % 10), '-',
                Char.ofNat (48 + env.now1.month / 10 % 10),
                Char.ofNat (48 + env.now1.month % 10), '-',
                Char.ofNat (48 + env.now1.day / 10 % 10),
                Char.ofNat (48 + env.now1.day % 10), ' ',
                Char.ofNat (48 + env.now1.hour / 10 % 10),
                Char.ofNat (48 + env.now1.hour % 10),
                ':', '0', '0', ':', '0', '0'])
             (String.mk
               [Char.ofNat (48 + env.now2.year / 1000 % 10),
                Char.ofNat (48 + env.now2.year / 100 % 10),
                Char.ofNat (48 + env.now2.year / 10 % 10),
                Char.ofNat (48 + env.now2.year % 10), '-',
                Char.ofNat (48 + env.now2.month / 10 % 10),
                Char.ofNat (48 + env.now2.month % 10), '-',
                Char.ofNat (48 + env.now2.day / 10 % 10),
                Char.ofNat (48 + env.now2.day % 10), ' ',
                Char.ofNat (48 + env.now2.hour / 10 % 10),
                Char.ofNat (48 + env.now2.hour % 10), ':',
                Char.ofNat (48 + env.now2.minute / 10 % 10),
                Char.ofNat (48 + env.now2.minute % 10), ':',
                Char.ofNat (48 + env.now2.second / 10 % 10),
                Char.ofNat (48 + env.now2.second % 10)])
             (bleReadNotify P env dev c value).dev.m_temperature
             (bleReadNotify P env dev c value).dev.m_humidity,
           SqlQuery.updateDevices dev.m_firmware dev.m_battery dev.m_deviceAddress])
    ∧ sqlWrites (bleReadNotify P { env with addDataExec := a, updateDeviceExec := u }
          dev c value).trace = sqlWrites (bleReadNotify P env dev c value).trace
    ∧ (bleReadNotify P { env with addDataExec := a, updateDeviceExec := u } dev c value).dev
        = (bleReadNotify P env dev c value).dev
    ∧ (bleReadNotify P env dev c value).dev.m_temperature
        = QByteArray.toFloat P.toFloatOther ((value.drop 2).take 4)
    ∧ (bleReadNotify P env dev c value).dev.m_humidity
        = (QByteArray.toFloat P.toFloatOther ((value.drop 9).take 4)).toInt P.undefinedCast := by
  rw [accepted_notification_outcome P env dev c value hc hne hm,
    accepted_notification_outcome P { env with addDataExec := a, updateDeviceExec := u }
      dev c value hc hne hm]
  cases hdb : (dev.m_dbInternal || dev.m_dbExternal)
  · simp [sqlWrites, QByteArray.mid]
  · simp only [if_pos, sqlWrites_append, sqlWrites_storeReading, toStringHour_chars,
      toStringFull_chars]
    simp [sqlWrites, QByteArray.mid]

/-- C8, at the frame `T=21.5 H=55.0`, with the clock at 2020-03-07 09:05:01 for
the hour text and at 2020-03-07 09:59:58 for the full text, local persistence on
and both `exec()` calls failing. -/
theorem bleReadNotify_accepted_storage_witness :
    tempHumiChar.uuid = UUID_TEMPHUMI
    ∧ asciiBytes "T=21.5 H=55.0" ≠ []
    ∧ sqlWrites (bleReadNotify examplePlatform
          { exampleEnv with now2 := ⟨2020, 3, 7, 9, 59, 58⟩ }
          { exampleDevice with m_dbInternal := true }
          tempHumiChar (asciiBytes "T=21.5 H=55.0")).trace =
      [SqlQuery.replacePlantData "A4:C1:38:00:00:01" "2020-03-07 09:00:00"
         "2020-03-07 09:59:58" (QFloat.finite false 11272192 (-19)) 55,
       SqlQuery.updateDevices "" 0 "A4:C1:38:00:00:01"] := by
  have h := (bleReadNotify_accepted_storage examplePlatform
      { exampleEnv with now2 := ⟨2020, 3, 7, 9, 59, 58⟩ }
      { exampleDevice with m_dbInternal := true }
      tempHumiChar (asciiBytes "T=21.5 H=55.0") false false rfl (by decide)
      (Or.inl (by decide)))
  refine ⟨rfl, by decide, ?_⟩
  rw [h.2.1 (by decide), h.2.2.2.2.1, h.2.2.2.2.2]
  decide!

/-- C4: the two-byte payload `T=` on the data characteristic is accepted. No
byte behind the buffer is read (byte 1 is the marker), both numbers are taken
from empty slices and come out as 0, the clock is stamped, the reading 0 / 0
is written to the storage, `refreshDataFinished(true)` is called and the
disconnect is requested. -/
theorem bleReadNotify_accepts_two_byte_payload :
    [0x54, 0x3D].length < 13
    ∧ bleReadNotify examplePlatform exampleEnv
        { exampleDevice with m_dbInternal := true,
                             m_temperature := QFloat.finite false 11272192 (-19),
                             m_humidity := 55 }
        tempHumiChar [0x54, 0x3D]
      = ⟨{ exampleDevice with m_dbInternal := true, m_temperature := QFloat.finite false 0 0,
                              m_humidity := 0, m_lastUpdate := ⟨2020, 3, 7, 9, 5, 1⟩ },
         [Event.sqlExec (SqlQuery.replacePlantData "A4:C1:38:00:00:01" "2020-03-07 09:00:00"
            "2020-03-07 09:05:01" (QFloat.finite false 0 0) 0),
          Event.sqlExec (SqlQuery.updateDevices "" 0 "A4:C1:38:00:00:01"),
          Event.refreshDataFinished true, Event.disconnectFromDevice]⟩ := by
  decide

/-- The payload of three zero bytes: byte 1 is not the marker, so the handler
reads `data[8]`, five places behind the buffer. With 0x3D lying there the
payload is accepted, with 0 there it is dropped. -/
theorem bleReadNotify_reads_behind_short_payload :
    (bleReadNotify examplePlatform { exampleEnv with mem := fun _ => 0x3D } exampleDevice
        tempHumiChar [0, 0, 0]).trace
      = [Event.refreshDataFinished true, Event.disconnectFromDevice]
    ∧ (bleReadNotify examplePlatform exampleEnv exampleDevice tempHumiChar [0, 0, 0]).trace
      = [] := by
  decide


/-! ## Reading decimal numerals -/

/-- The `float` for the text `21.5`. -/
theorem toFloat_21_5 (f : QByteArray → QFloat) :
    QByteArray.toFloat f [50, 49, 46, 53] = QFloat.finite false 11272192 (-19) := by
  have h1 : readDecimal [50, 49, 46, 53] = some (false, 215, 1) := by decide
  have h2 : roundBinary32 215 (10 ^ 1) = some (11272192, -19) := by decide!
  unfold QByteArray.toFloat
  simp only [h1, h2]
  rfl

/-- The `float` for the text `55.0`. -/
theorem toFloat_55_0 (f : QByteArray → QFloat) :
    QByteArray.toFloat f [53, 53, 46, 48] = QFloat.finite false 14417920 (-18) := by
  have h1 : readDecimal [53, 53, 46, 48] = some (false, 550, 1) := by decide
  have h2 : roundBinary32 550 (10 ^ 1) = some (14417920, -18) := by decide!
  unfold QByteArray.toFloat
  simp only [h1, h2]
  rfl

/-- The example of the specification: every frame with 0x3D at byte 1, the text
`21.50` from byte 2 and the text `55.0` from byte 9 gives the temperature 21.5
and the humidity 55. -/
theorem bleReadNotify_example_frame (P : Platform) (env : NotifyEnv) (dev : Device)
    (c : QLowEnergyCharacteristic) (b0 b7 b8 : Nat) (r : List Nat)
    (hc : c.uuid = UUID_TEMPHUMI) :
    (bleReadNotify P env dev c
        (b0 :: 0x3D :: 50 :: 49 :: 46 :: 53 :: 48 :: b7 :: b8 :: 53 :: 53 :: 46 :: 48 :: r)
      ).dev.m_temperature.value = some (43 / 2)
    ∧ (bleReadNotify P env dev c
        (b0 :: 0x3D :: 50 :: 49 :: 46 :: 53 :: 48 :: b7 :: b8 :: 53 :: 53 :: 46 :: 48 :: r)
      ).dev.m_humidity = 55 := by
  rw [accepted_notification_outcome P env dev c
    (b0 :: 0x3D :: 50 :: 49 :: 46 :: 53 :: 48 :: b7 :: b8 :: 53 :: 53 :: 46 :: 48 :: r)
    hc (List.cons_ne_nil _ _) (Or.inl rfl)]
  have h1 : QByteArray.mid
      (b0 :: 0x3D :: 50 :: 49 :: 46 :: 53 :: 48 :: b7 :: b8 :: 53 :: 53 :: 46 :: 48 :: r) 2 4
      = [50, 49, 46, 53] := rfl
  have h2 : QByteArray.mid
      (b0 :: 0x3D :: 50 :: 49 :: 46 :: 53 :: 48 :: b7 :: b8 :: 53 :: 53 :: 46 :: 48 :: r) 9 4
      = [53, 53, 46, 48] := rfl
  simp only [h1, h2, toFloat_21_5, toFloat_55_0]
  constructor
  · norm_num [QFloat.value]
  · have hi : integerPart 14417920 (-18) = 55 := by decide
    simp only [QFloat.toInt, hi]
    rfl


/-! ## The firmware reader -/


/-- What `serviceDetailsDiscovered_infos` does in state `ServiceDiscovered` on
an existing info service, by the firmware text it holds after the read. -/
theorem infos_discovered_outcome (P : Platform) (dev : Device)
    (svc : QLowEnergyService) (hsvc : dev.serviceInfos = some svc) :
    serviceDetailsDiscovered_infos P dev ServiceState.ServiceDiscovered =
      (let fw := if (svc.characteristic UUID_FIRMWARE).value.length > 0
                 then P.fromUtf8 (svc.characteristic UUID_FIRMWARE).value else dev.m_firmware
       if fw.length = 8 then
         if P.versionGE fw P.LATEST_KNOWN_FIRMWARE_HYGROTEMP_LCD then
           some ⟨{ dev with m_firmware := fw, m_firmware_uptodate := true },
             [Event.versionCompare fw P.LATEST_KNOWN_FIRMWARE_HYGROTEMP_LCD, Event.sensorUpdated]⟩
         else
           some ⟨{ dev with m_firmware := fw },
             [Event.versionCompare fw P.LATEST_KNOWN_FIRMWARE_HYGROTEMP_LCD]⟩
       else some ⟨{ dev with m_firmware := fw }, []⟩) := by
  cases dev
  simp only at hsvc
  subst hsvc
  unfold serviceDetailsDiscovered_infos
  rw [if_pos rfl]
  by_cases hv : (svc.characteristic UUID_FIRMWARE).value.length > 0
  · simp only [hv, if_true]
  · simp only [hv, if_false]

/-- C5: on an existing info service, when the firmware text held after the read
(the value just read if it is not empty, the text stored before otherwise) has
a length other than 8, `serviceDetailsDiscovered_infos` returns, makes no
`Version` comparison, leaves `m_firmware_uptodate` as it was and does not emit
`sensorUpdated`; it makes no call at all. -/
theorem serviceDetailsDiscovered_infos_length_gate (P : Platform) (dev : Device)
    (svc : QLowEnergyService) (newState : ServiceState)
    (hsvc : dev.serviceInfos = some svc)
    (hlen : (if (svc.characteristic UUID_FIRMWARE).value.length > 0
             then P.fromUtf8 (svc.characteristic UUID_FIRMWARE).value
             else dev.m_firmware).length ≠ 8) :
    ∃ r, serviceDetailsDiscovered_infos P dev newState = some r
      ∧ versionCompares r.trace = []
      ∧ r.dev.m_firmware_uptodate = dev.m_firmware_uptodate
      ∧ Event.sensorUpdated ∉ r.trace
      ∧ r.trace = [] := by
  by_cases hst : newState = ServiceState.ServiceDiscovered
  · subst hst
    rw [infos_discovered_outcome P dev svc hsvc]
    simp only [if_neg hlen]
    exact ⟨_, rfl, rfl, rfl, by simp, rfl⟩
  · unfold serviceDetailsDiscovered_infos
    rw [if_neg hst]
    exact ⟨_, rfl, rfl, rfl, by simp, rfl⟩

/-- C5, at the firmware text `1.0.2` (five characters). -/
theorem serviceDetailsDiscovered_infos_length_gate_witness :
    (asciiText (asciiBytes "1.0.2")).length ≠ 8
    ∧ ∃ r, serviceDetailsDiscovered_infos examplePlatform
          { exampleDevice with serviceInfos := some (infoService "1.0.2") }
          ServiceState.ServiceDiscovered = some r
      ∧ versionCompares r.trace = []
      ∧ r.dev.m_firmware_uptodate = false
      ∧ Event.sensorUpdated ∉ r.trace
      ∧ r.trace = [] :=
  ⟨by decide,
    serviceDetailsDiscovered_infos_length_gate examplePlatform
      { exampleDevice with serviceInfos := some (infoService "1.0.2") }
      (infoService "1.0.2") ServiceState.ServiceDiscovered rfl (by decide)⟩

/-- C6: when the firmware characteristic holds a non-empty value whose text `fw`
has eight characters, `serviceDetailsDiscovered_infos` in state
`ServiceDiscovered` returns with `fw` in `m_firmware`, and
* if `Version(fw) >= Version(LATEST_KNOWN_FIRMWARE_HYGROTEMP_LCD)`, the flag
  `m_firmware_uptodate` is true afterwards and `sensorUpdated` is emitted once;
  this is so in particular when `fw` is the constant itself, the ordering
  holding between a version and itself;
* otherwise the handler leaves the flag alone and emits no `sensorUpdated`: the
  flag, false before the event, is false afterwards.
The flag is false before every event the driver can handle: once it is set the
info service is never created again (`infos_read_once`). -/
theorem serviceDetailsDiscovered_infos_compares (P : Platform) (dev : Device)
    (svc : QLowEnergyService) (hsvc : dev.serviceInfos = some svc)
    (hval : (svc.characteristic UUID_FIRMWARE).value.length > 0)
    (h8 : (P.fromUtf8 (svc.characteristic UUID_FIRMWARE).value).length = 8) :
    ∃ r, serviceDetailsDiscovered_infos P dev ServiceState.ServiceDiscovered = some r
      ∧ r.dev.m_firmware = P.fromUtf8 (svc.characteristic UUID_FIRMWARE).value
      ∧ (P.versionGE (P.fromUtf8 (svc.characteristic UUID_FIRMWARE).value)
            P.LATEST_KNOWN_FIRMWARE_HYGROTEMP_LCD = true →
          r.dev.m_firmware_uptodate = true ∧ r.trace.count Event.sensorUpdated = 1)
      ∧ (P.versionGE (P.fromUtf8 (svc.characteristic UUID_FIRMWARE).value)
            P.LATEST_KNOWN_FIRMWARE_HYGROTEMP_LCD = false →
          r.dev.m_firmware_uptodate = dev.m_firmware_uptodate
            ∧ (dev.m_firmware_uptodate = false → r.dev.m_firmware_uptodate = false)
            ∧ r.trace.count Event.sensorUpdated = 0)
      ∧ (P.fromUtf8 (svc.characteristic UUID_FIRMWARE).value
            = P.LATEST_KNOWN_FIRMWARE_HYGROTEMP_LCD →
          P.versionGE P.LATEST_KNOWN_FIRMWARE_HYGROTEMP_LCD
            P.LATEST_KNOWN_FIRMWARE_HYGROTEMP_LCD = true →
          r.dev.m_firmware_uptodate = true ∧ r.trace.count Event.sensorUpdated = 1) := by
  rw [infos_discovered_outcome P dev svc hsvc]
  simp only [hval, if_true, h8]
  cases hge : P.versionGE (P.fromUtf8 (svc.characteristic UUID_FIRMWARE).value)
      P.LATEST_KNOWN_FIRMWARE_HYGROTEMP_LCD
  · refine ⟨_, rfl, rfl, by simp, fun _ => ⟨rfl, fun h => h, by simp⟩, ?_⟩
    intro heq hrefl
    rw [heq, hrefl] at hge
    exact absurd hge (by decide)
  · refine ⟨_, rfl, rfl, fun _ => ⟨rfl, by simp⟩, by simp, fun _ _ => ⟨rfl, by simp⟩⟩

/-- C6, from the fresh object: at the firmware text `00.00.66`, the newest known
one, the flag is set and `sensorUpdated` is emitted once; at the lesser text
`00.00.00` the flag is false afterwards and nothing is emitted. -/
theorem serviceDetailsDiscovered_infos_compares_witness :
    (asciiText (asciiBytes "00.00.66")).length = 8
    ∧ (asciiText (asciiBytes "00.00.00")).length = 8
    ∧ dottedVersionGE "00.00.00" "00.00.66" = false
    ∧ exampleDevice.m_firmware_uptodate = false
    ∧ (∃ r, serviceDetailsDiscovered_infos examplePlatform
          { exampleDevice with serviceInfos := some (infoService "00.00.66") }
          ServiceState.ServiceDiscovered = some r
        ∧ r.dev.m_firmware = "00.00.66"
        ∧ r.dev.m_firmware_uptodate = true
        ∧ r.trace.count Event.sensorUpdated = 1)
    ∧ (∃ r, serviceDetailsDiscovered_infos examplePlatform
          { exampleDevice with serviceInfos := some (infoService "00.00.00") }
          ServiceState.ServiceDiscovered = some r
        ∧ r.dev.m_firmware = "00.00.00"
        ∧ r.dev.m_firmware_uptodate = false
        ∧ r.trace.count Event.sensorUpdated = 0) := by
  obtain ⟨r, hr, hfw, hge, _, _⟩ := serviceDetailsDiscovered_infos_compares examplePlatform
    { exampleDevice with serviceInfos := some (infoService "00.00.66") }
    (infoService "00.00.66") rfl (by decide) (by decide)
  obtain ⟨r2, hr2, hfw2, _, hlt2, _⟩ := serviceDetailsDiscovered_infos_compares examplePlatform
    { exampleDevice with serviceInfos := some (infoService "00.00.00") }
    (infoService "00.00.00") rfl (by decide) (by decide)
  exact ⟨by decide, by decide, by decide, rfl,
    ⟨r, hr, by rw [hfw]; decide, (hge (by decide)).1, (hge (by decide)).2⟩,
    ⟨r2, hr2, by rw [hfw2]; decide, (hlt2 (by decide)).2.1 rfl, (hlt2 (by decide)).2.2⟩⟩

/-- A text of length 0 is the empty text. -/
theorem string_eq_empty_of_length (s : String) (h : s.length = 0) : s = "" := by
  cases s with
  | mk data =>
    have hd : data = [] := List.length_eq_zero.mp h
    subst hd
    rfl

/-- With a stored firmware text that is neither empty nor `UNKN`,
`addLowEnergyService` on the device information UUID deletes the info service it
held, if any, creates nothing and leaves the info slot empty. -/
theorem infos_block_known_firmware
    (createServiceObject : QBluetoothUuid → Option QLowEnergyService) (dev : Device)
    (h1 : dev.m_firmware ≠ "") (h2 : dev.m_firmware ≠ "UNKN") :
    addLowEnergyService createServiceObject dev UUID_INFOS
      = ⟨{ dev with serviceInfos := none }, deleteEvents dev.serviceInfos⟩ := by
  have hlen : ¬ (dev.m_firmware.length = 0) := fun h => h1 (string_eq_empty_of_length _ h)
  have hne : ¬ (UUID_INFOS = UUID_DATA) := by decide
  have hcond : (decide (dev.m_firmware.length = 0) || decide (dev.m_firmware = "UNKN")) = false := by
    simp [hlen, h2]
  unfold addLowEnergyService addLowEnergyService_infos addLowEnergyService_data
  simp only [if_pos, if_neg hne, hcond, Bool.false_eq_true, if_false, List.append_nil]

/-- The info service is read once: when a `discovered` event handled with the
flag `m_firmware_uptodate` unset leaves it set, the stored firmware text has
eight characters, so the next `addLowEnergyService` on the device information
UUID creates no service and leaves the info slot empty, and no further
`discovered` event can be handled. -/
theorem infos_read_once (P : Platform)
    (createServiceObject : QBluetoothUuid → Option QLowEnergyService)
    (dev : Device) (r : Outcome)
    (hr : serviceDetailsDiscovered_infos P dev ServiceState.ServiceDiscovered = some r)
    (hflag : dev.m_firmware_uptodate = false) (hset : r.dev.m_firmware_uptodate = true) :
    r.dev.m_firmware.length = 8
    ∧ (addLowEnergyService createServiceObject r.dev UUID_INFOS).dev.serviceInfos = none
    ∧ createdUuids (addLowEnergyService createServiceObject r.dev UUID_INFOS).trace = []
    ∧ serviceDetailsDiscovered_infos P
        (addLowEnergyService createServiceObject r.dev UUID_INFOS).dev
        ServiceState.ServiceDiscovered = none := by
  have h8 : r.dev.m_firmware.length = 8 := by
    cases hsvc : dev.serviceInfos with
    | none =>
      unfold serviceDetailsDiscovered_infos at hr
      rw [if_pos rfl, hsvc] at hr
      exact absurd hr (by simp)
    | some svc =>
      rw [infos_discovered_outcome P dev svc hsvc] at hr
      dsimp only at hr
      generalize (if (svc.characteristic UUID_FIRMWARE).value.length > 0
        then P.fromUtf8 (svc.characteristic UUID_FIRMWARE).value else dev.m_firmware) = fw at hr
      by_cases hl : fw.length = 8
      · rw [if_pos hl] at hr
        cases hge : P.versionGE fw P.LATEST_KNOWN_FIRMWARE_HYGROTEMP_LCD
        · rw [hge] at hr
          have := Option.some.inj hr
          rw [← this] at hset
          rw [hflag] at hset
          exact absurd hset (by decide)
        · rw [hge] at hr
          have := Option.some.inj hr
          rw [← this]
          exact hl
      · rw [if_neg hl] at hr
        have := Option.some.inj hr
        rw [← this] at hset
        rw [hflag] at hset
        exact absurd hset (by decide)
  have hne1 : r.dev.m_firmware ≠ "" := by
    intro h
    rw [h] at h8
    exact absurd h8 (by decide)
  have hne2 : r.dev.m_firmware ≠ "UNKN" := by
    intro h
    rw [h] at h8
    exact absurd h8 (by decide)
  rw [infos_block_known_firmware createServiceObject r.dev hne1 hne2]
  refine ⟨h8, rfl, ?_, ?_⟩
  · unfold deleteEvents
    cases r.dev.serviceInfos <;> rfl
  · unfold serviceDetailsDiscovered_infos
    rw [if_pos rfl]

/-! ## The service resolver -/


/-- C7 as stated fails: with the non-empty firmware text `UNKN`
stored, `addLowEnergyService` on the device information UUID asks the
controller for the service and keeps the handle. -/
theorem addLowEnergyService_infos_unkn_creates :
    ("UNKN" : String) ≠ ""
    ∧ createdUuids (addLowEnergyService exampleController
        { exampleDevice with m_firmware := "UNKN" } UUID_INFOS).trace = [UUID_INFOS]
    ∧ (addLowEnergyService exampleController
        { exampleDevice with m_firmware := "UNKN" } UUID_INFOS).dev.serviceInfos
      = some ⟨UUID_INFOS, ServiceState.DiscoveryRequired, []⟩ := by
  decide

/-- C7, amended: when the stored firmware text is neither empty nor `UNKN`,
`addLowEnergyService` on the device information UUID never calls
`createServiceObject`; it deletes the info service it held, if any, and leaves
the info slot empty. -/
theorem addLowEnergyService_infos_known_firmware
    (createServiceObject : QBluetoothUuid → Option QLowEnergyService) (dev : Device)
    (h1 : dev.m_firmware ≠ "") (h2 : dev.m_firmware ≠ "UNKN") :
    createdUuids (addLowEnergyService createServiceObject dev UUID_INFOS).trace = []
    ∧ (addLowEnergyService createServiceObject dev UUID_INFOS).dev.serviceInfos = none
    ∧ (addLowEnergyService createServiceObject dev UUID_INFOS).trace
        = (match dev.serviceInfos with
           | some s => [Event.deleteService s]
           | none => []) := by
  rw [infos_block_known_firmware createServiceObject dev h1 h2]
  unfold deleteEvents
  cases dev.serviceInfos <;> exact ⟨rfl, rfl, rfl⟩

/-- C7 amended, at the stored firmware text `00.00.66`. -/
theorem addLowEnergyService_infos_known_firmware_witness :
    ("00.00.66" : String) ≠ "" ∧ ("00.00.66" : String) ≠ "UNKN"
    ∧ createdUuids (addLowEnergyService exampleController
        { exampleDevice with m_firmware := "00.00.66" } UUID_INFOS).trace = []
    ∧ (addLowEnergyService exampleController
        { exampleDevice with m_firmware := "00.00.66" } UUID_INFOS).dev.serviceInfos = none :=
  ⟨by decide, by decide,
    (addLowEnergyService_infos_known_firmware exampleController
      { exampleDevice with m_firmware := "00.00.66" } (by decide) (by decide)).1,
    (addLowEnergyService_infos_known_firmware exampleController
      { exampleDevice with m_firmware := "00.00.66" } (by decide) (by decide)).2.1⟩

/-- C9: `addLowEnergyService` on the data service UUID first deletes the data
service it held, if any, then calls `createServiceObject` once, for that UUID,
and warns when the controller gives nothing. Afterwards the data slot holds
what the controller gave (nothing when the creation failed), and every other
member, the battery slot among them, is as before. -/
theorem addLowEnergyService_data_replaces_handle
    (createServiceObject : QBluetoothUuid → Option QLowEnergyService) (dev : Device) :
    (addLowEnergyService createServiceObject dev UUID_DATA).trace
        = (match dev.serviceData with
           | some s => [Event.deleteService s]
           | none => [])
          ++ [Event.createServiceObject UUID_DATA]
          ++ (match createServiceObject UUID_DATA with
              | some _ => []
              | none => [Event.qWarning ("Cannot create service (data) for uuid:" ++ UUID_DATA)])
    ∧ createdUuids (addLowEnergyService createServiceObject dev UUID_DATA).trace = [UUID_DATA]
    ∧ (addLowEnergyService createServiceObject dev UUID_DATA).dev.serviceData
        = createServiceObject UUID_DATA
    ∧ (addLowEnergyService createServiceObject dev UUID_DATA).dev.serviceBattery
        = dev.serviceBattery
    ∧ (addLowEnergyService createServiceObject dev UUID_DATA).dev
        = { dev with serviceData := createServiceObject UUID_DATA } := by
  have hne : ¬ (UUID_DATA = UUID_INFOS) := by decide
  unfold addLowEnergyService addLowEnergyService_infos addLowEnergyService_data
  simp only [if_pos, if_neg hne, List.nil_append]
  unfold deleteEvents
  cases dev.serviceData <;> cases createServiceObject UUID_DATA <;>
    (refine ⟨?_, ?_, ?_, ?_, ?_⟩ <;> first | rfl | trivial)

/-! ## Which method writes which data member -/


/-- C10 as stated fails: `serviceDetailsDiscovered_infos` writes
the firmware text. With no firmware stored and the firmware characteristic
holding `00.00.66`, the text `00.00.66` is stored afterwards. -/
theorem serviceDetailsDiscovered_infos_writes_firmware :
    ({ exampleDevice with serviceInfos := some (infoService "00.00.66") } : Device).m_firmware = ""
    ∧ (serviceDetailsDiscovered_infos examplePlatform
          { exampleDevice with serviceInfos := some (infoService "00.00.66") }
          ServiceState.ServiceDiscovered).map (fun r => r.dev.m_firmware)
      = some "00.00.66" := by
  decide

/-- The block of the device information service writes no data member. -/
theorem addLowEnergyService_infos_dataFields
    (createServiceObject : QBluetoothUuid → Option QLowEnergyService) (dev : Device)
    (uuid : QBluetoothUuid) :
    (addLowEnergyService_infos createServiceObject dev uuid).dev.dataFields = dev.dataFields := by
  unfold addLowEnergyService_infos
  by_cases h : uuid = UUID_INFOS
  · rw [if_pos h]
    cases hc : (decide (dev.m_firmware.length = 0) || decide (dev.m_firmware = "UNKN"))
    · simp only [hc, Bool.false_eq_true, if_false]
      rfl
    · simp only [hc, if_true]
      rfl
  · rw [if_neg h]

/-- The block of the data service writes no data member. -/
theorem addLowEnergyService_data_dataFields
    (createServiceObject : QBluetoothUuid → Option QLowEnergyService) (dev : Device)
    (uuid : QBluetoothUuid) :
    (addLowEnergyService_data createServiceObject dev uuid).dev.dataFields = dev.dataFields := by
  unfold addLowEnergyService_data
  by_cases h : uuid = UUID_DATA
  · rw [if_pos h]
    rfl
  · rw [if_neg h]

/-- C10, amended: the battery level, the temperature, the humidity and the time
of the last update are left as they were by every method other than
`bleReadNotify`; the firmware text is left as it was by every method other than
`serviceDetailsDiscovered_infos`, `bleReadNotify` included. When
`serviceDetailsDiscovered_infos` returns, the firmware text is the value just
read if the state is `ServiceDiscovered` and that value is not empty, and the
text stored before otherwise; it fails to return only in state
`ServiceDiscovered` with no info service. -/
theorem data_fields_frame (P : Platform) (env : NotifyEnv)
    (createServiceObject : QBluetoothUuid → Option QLowEnergyService) (dev : Device)
    (uuid : QBluetoothUuid) (newState : ServiceState) (c : QLowEnergyCharacteristic)
    (d : QLowEnergyDescriptor) (value : QByteArray) :
    (serviceScanDone dev).dev.dataFields = dev.dataFields
    ∧ (addLowEnergyService createServiceObject dev uuid).dev.dataFields = dev.dataFields
    ∧ (serviceDetailsDiscovered_battery dev newState).dev.dataFields = dev.dataFields
    ∧ (serviceDetailsDiscovered_data dev newState).dev.dataFields = dev.dataFields
    ∧ (bleWriteDone dev c value).dev.dataFields = dev.dataFields
    ∧ (bleReadDone dev c value).dev.dataFields = dev.dataFields
    ∧ (confirmedDescriptorWrite dev d value).dev.dataFields = dev.dataFields
    ∧ (bleReadNotify P env dev c value).dev.m_firmware = dev.m_firmware
    ∧ (bleReadNotify P env dev c value).dev.m_battery = dev.m_battery
    ∧ (match serviceDetailsDiscovered_infos P dev newState with
       | some r =>
         r.dev.readingFields = dev.readingFields
         ∧ r.dev.m_firmware =
             (match dev.serviceInfos with
              | some svc =>
                if newState = ServiceState.ServiceDiscovered
                    ∧ (svc.characteristic UUID_FIRMWARE).value.length > 0
                then P.fromUtf8 (svc.characteristic UUID_FIRMWARE).value
                else dev.m_firmware
              | none => dev.m_firmware)
       | none => newState = ServiceState.ServiceDiscovered ∧ dev.serviceInfos = none) := by
  refine ⟨rfl, ?_, rfl, ?_, rfl, rfl, ?_, ?_, ?_, ?_⟩
  · show (addLowEnergyService_data createServiceObject
        (addLowEnergyService_infos createServiceObject dev uuid).dev uuid).dev.dataFields
      = dev.dataFields
    rw [addLowEnergyService_data_dataFields, addLowEnergyService_infos_dataFields]
  · unfold serviceDetailsDiscovered_data
    split
    · split <;> rfl
    · rfl
  · unfold confirmedDescriptorWrite
    split <;> rfl
  · unfold bleReadNotify
    split
    · split
      · split <;> rfl
      · rfl
    · rfl
  · unfold bleReadNotify
    split
    · split
      · split <;> rfl
      · rfl
    · rfl
  · by_cases hst : newState = ServiceState.ServiceDiscovered
    · subst hst
      cases hsvc : dev.serviceInfos with
      | none =>
        have : serviceDetailsDiscovered_infos P dev ServiceState.ServiceDiscovered = none := by
          unfold serviceDetailsDiscovered_infos
          rw [if_pos rfl, hsvc]
        rw [this]
        exact ⟨rfl, rfl⟩
      | some svc =>
        rw [infos_discovered_outcome P dev svc hsvc]
        by_cases hv : (svc.characteristic UUID_FIRMWARE).value.length > 0
        · simp only [hv, if_true, true_and]
          by_cases h8 : (P.fromUtf8 (svc.characteristic UUID_FIRMWARE).value).length = 8
          · cases hge : P.versionGE (P.fromUtf8 (svc.characteristic UUID_FIRMWARE).value)
                P.LATEST_KNOWN_FIRMWARE_HYGROTEMP_LCD
            · simp only [h8, hge, if_true, Bool.false_eq_true, if_false]
              refine ⟨?_, ?_⟩ <;> first | rfl | trivial
            · simp only [h8, hge, if_true]
              refine ⟨?_, ?_⟩ <;> first | rfl | trivial
          · simp only [h8, if_false]
            refine ⟨?_, ?_⟩ <;> first | rfl | trivial
        · simp only [hv, if_false, and_false]
          by_cases h8 : dev.m_firmware.length = 8
          · cases hge : P.versionGE dev.m_firmware P.LATEST_KNOWN_FIRMWARE_HYGROTEMP_LCD
            · simp only [h8, hge, if_true, Bool.false_eq_true, if_false]
              refine ⟨?_, ?_⟩ <;> first | rfl | trivial
            · simp only [h8, hge, if_true]
              refine ⟨?_, ?_⟩ <;> first | rfl | trivial
          · simp only [h8, if_false]
            refine ⟨?_, ?_⟩ <;> first | rfl | trivial
    · have : serviceDetailsDiscovered_infos P dev newState = some ⟨dev, []⟩ := by
        unfold serviceDetailsDiscovered_infos
        rw [if_neg hst]
      rw [this]
      refine ⟨rfl, ?_⟩
      cases dev.serviceInfos with
      | none => rfl
      | some svc => simp only [hst, false_and, if_false]

end WatchFlower
